import Mathlib

/-!
Verification development for the threat-scanner heuristic risk-scoring engine
(`backend/core_engine/{url_checker, email_checker, sms_checker}.py`).

The three analyzers are shallowly embedded as executable Lean functions.
Conventions of the embedding:

* Python strings are `String`, processed through `List Char` (`String.data`);
  every Python string primitive used by the source (`lower`, `strip`, `split`,
  `replace`, `in`, `endswith`, regular-expression searches over fixed patterns)
  is re-implemented structurally below so that terms reduce in the kernel.
* The score accumulator is a Python float, but with the integer weight tables
  used by the engine every increment the source can perform is a multiple of
  `1/2` (the only non-integer factors are `* 0.5` in the email analyzer and
  `* (count / 2)` in the SMS analyzer).  The embedding therefore tracks the
  score exactly in half-points: a Lean value `score2 : ℤ` stands for the Python
  float `score2 / 2`.  Weight tables are `ℤ`-valued, matching the shipped
  defaults and rule files.
* Fallible code returns `Except`; an uncaught Python exception is an
  `Except.error`.  This applies to the rule-file loaders (whose
  `open`/`json.load` can raise) and to `analyze_url`, which raises
  `ValueError` on reachable inputs: `urlparse` rejects an unbalanced IPv6
  bracket (url_checker.py line 117) and the eager `parsed.port` evaluation
  rejects a malformed or out-of-range port (line 133).  The email and SMS
  analyzers are total: their only `urlparse` uses sit inside
  `try/except` blocks in the source.
* The external `tldextract` library and the thresholded uses of
  `difflib.SequenceMatcher.ratio` and of the character-entropy estimate are
  modelled exactly at the comparisons the source performs (see the individual
  definitions).
-/

set_option maxRecDepth 40000

/-! ## Python string primitives over `List Char` -/

/-- Python whitespace for `\s` and `str.strip` (ASCII range). -/
def pyIsSpace (c : Char) : Bool :=
  c.isWhitespace || c = Char.ofNat 11 || c = Char.ofNat 12

/-- `str.lower` (ASCII case folding, the only case arising here). -/
def lowerL (l : List Char) : List Char := l.map Char.toLower

/-- `str.strip()` with no arguments. -/
def trimL (l : List Char) : List Char :=
  ((l.dropWhile pyIsSpace).reverse.dropWhile pyIsSpace).reverse

/-- `str.strip()` on `String`. -/
def pyStrip (s : String) : String := String.mk (trimL s.data)

/-- `str.lower()` on `String`. -/
def pyLower (s : String) : String := String.mk (lowerL s.data)

/-- Python `needle in hay` (substring containment). -/
def occursIn (needle hay : List Char) : Bool :=
  hay.tails.any (fun t => needle.isPrefixOf t)

/-- Python `needle in hay` on `String`. -/
def strIn (needle hay : String) : Bool := occursIn needle.data hay.data

/-- `str.split(sep)` for a one-character separator (keeps empty pieces,
as Python does). -/
def splitOnPredL (p : Char → Bool) (l : List Char) : List (List Char) :=
  l.foldr (fun c acc => if p c then [] :: acc else (c :: acc.headD []) :: acc.tail) [[]]

/-- `str.split(sep)` for a one-character separator. -/
def splitOnCharL (sep : Char) (l : List Char) : List (List Char) :=
  splitOnPredL (fun c => c = sep) l

/-- `str.split(sep)[-1]`: the part after the last separator
(the whole string when the separator is absent, as in Python). -/
def afterLastL (sep : Char) (l : List Char) : List Char :=
  (l.reverse.takeWhile (fun c => c ≠ sep)).reverse

/-- `str.split(sep)[0]`: the part before the first separator. -/
def beforeFirstL (sep : Char) (l : List Char) : List Char :=
  l.takeWhile (fun c => c ≠ sep)

/-- `str.replace(pat, sub)` for a non-empty pattern, replacing every
occurrence left to right.  The first argument is recursion fuel
(one unit per consumed character suffices). -/
def replaceAllL (pat sub : List Char) : Nat → List Char → List Char
  | 0, l => l
  | _+1, [] => []
  | n+1, c :: cs =>
    if pat ≠ [] && pat.isPrefixOf (c :: cs) then
      sub ++ replaceAllL pat sub n ((c :: cs).drop pat.length)
    else
      c :: replaceAllL pat sub n cs

/-- `str.replace(pat, sub)` on `String`. -/
def pyReplace (s pat sub : String) : String :=
  String.mk (replaceAllL pat.data sub.data s.data.length s.data)

/-- `str.endswith(suffixStr)`. -/
def pyEndsWith (s sfx : String) : Bool :=
  sfx.data.reverse.isPrefixOf s.data.reverse

/-- `sep.join(parts)` over character lists. -/
def intercalateL (sep : List Char) : List (List Char) → List Char
  | [] => []
  | [x] => x
  | x :: y :: rest => x ++ sep ++ intercalateL sep (y :: rest)

/-- Split at the first occurrence of `sep`: `some (before, after)` when `sep`
occurs, `none` otherwise. -/
def splitFirstL (sep : Char) (l : List Char) : Option (List Char × List Char) :=
  match l.dropWhile (fun c => c ≠ sep) with
  | [] => none
  | _ :: t => some (l.takeWhile (fun c => c ≠ sep), t)

/-- `re.findall(r"[cls]+", s)`: maximal runs of characters satisfying `p`.
First argument is fuel (the length of the list suffices). -/
def runsAux (p : Char → Bool) : Nat → List Char → List (List Char)
  | 0, _ => []
  | _+1, [] => []
  | n+1, c :: cs =>
    if p c then ((c :: cs).takeWhile p) :: runsAux p n ((c :: cs).dropWhile p)
    else runsAux p n cs

/-- `re.findall(r"[cls]+", s)` over a character list. -/
def findallRuns (p : Char → Bool) (l : List Char) : List (List Char) :=
  runsAux p l.length l

/-- Code-point comparison of strings, as Python `<` on `str`. -/
def lexLtL : List Char → List Char → Bool
  | [], [] => false
  | [], _ :: _ => true
  | _ :: _, [] => false
  | a :: as, b :: bs =>
    if a.toNat < b.toNat then true
    else if b.toNat < a.toNat then false
    else lexLtL as bs

/-- Insertion step of `sorted` on strings. -/
def insertSortedStr (x : String) : List String → List String
  | [] => [x]
  | y :: ys => if lexLtL y.data x.data then y :: insertSortedStr x ys else x :: y :: ys

/-- Python `sorted` on a list of strings (code-point order). -/
def sortStrs (l : List String) : List String := l.foldr insertSortedStr []

/-- Word character for `\w` and `\b` (ASCII: letters, digits, underscore). -/
def isWordChar (c : Char) : Bool := c.isAlphanum || c = '_'

/-! ## Shared terminal step: clamp and verdict (identical in all three files) -/

/-- The final score normalization
`raw_score = max(0, score); mapped = int(min(max(raw_score, 0), 100))`,
on the half-point representation (`score2` is twice the Python float score;
all bounds are doubled; the final `int` truncation of a value in `[0, 100]`
is floor, i.e. integer division of the half-points by two). -/
def mappedScore (score2 : ℤ) : ℤ :=
  (min (max (max 0 score2) 0) 200) / 2

/-- The shared verdict thresholds:
`phishing if score >= 65, suspicious if score >= 30, else safe`. -/
def verdictOf (mapped : ℤ) : String :=
  if mapped ≥ 65 then "phishing"
  else if mapped ≥ 30 then "suspicious"
  else "safe"

/-- Severity rank of a verdict string, for the monotonicity property. -/
def severity (v : String) : Nat :=
  if v = "phishing" then 2 else if v = "suspicious" then 1 else 0

/-- `reasons or ["No obvious automated red flags detected"]`. -/
def orSentinel (reasons : List String) : List String :=
  if reasons = [] then ["No obvious automated red flags detected"] else reasons

theorem mappedScore_nonneg (s : ℤ) : 0 ≤ mappedScore s := by
  unfold mappedScore; omega

theorem mappedScore_le_100 (s : ℤ) : mappedScore s ≤ 100 := by
  unfold mappedScore; omega

theorem orSentinel_ne_nil (l : List String) : orSentinel l ≠ [] := by
  unfold orSentinel
  split
  · simp
  · assumption

/-! ## `urllib.parse.urlparse` -/

/-- The components of `urllib.parse.urlparse` (the lazily-raising `port`
accessor is modelled separately by `pyPort` below, since the engine
evaluates it eagerly when building its `parsed` payload). -/
structure PyUrl where
  scheme : String
  netloc : String
  path : String
  params : String
  query : String
  fragment : String
deriving DecidableEq

/-- A valid URL scheme prefix: a letter followed by letters, digits, `+`, `-`, `.`. -/
def validScheme (l : List Char) : Bool :=
  match l with
  | [] => false
  | c :: rest => c.isAlpha && rest.all (fun d => d.isAlphanum || ['+', '-', '.'].contains d)

/-- The splitting core of `urllib.parse.urlsplit`: fragment off first, then
scheme (only when the prefix before the first `:` is a valid scheme,
lower-cased), then netloc when the remainder starts with `//`, then query at
the first `?`.  Error conditions and the params component are layered on by
`pyUrlparse`. -/
def urlsplitParts (url : String) : PyUrl :=
  let cs := url.data
  let fragSplit := splitFirstL '#' cs
  let u1 := match fragSplit with | some (a, _) => a | none => cs
  let fragment := match fragSplit with | some (_, b) => b | none => []
  let schemeSplit := splitFirstL ':' u1
  let hasScheme := match schemeSplit with | some (a, _) => validScheme a | none => false
  let scheme := if hasScheme then (match schemeSplit with | some (a, _) => lowerL a | none => []) else []
  let rest := if hasScheme then (match schemeSplit with | some (_, b) => b | none => u1) else u1
  let hasNetloc := ['/', '/'].isPrefixOf rest
  let afterSlashes := rest.drop 2
  let netloc := if hasNetloc then afterSlashes.takeWhile (fun c => !(['/', '?', '#'].contains c)) else []
  let rest2 := if hasNetloc then afterSlashes.dropWhile (fun c => !(['/', '?', '#'].contains c)) else rest
  let querySplit := splitFirstL '?' rest2
  let path := match querySplit with | some (a, _) => a | none => rest2
  let query := match querySplit with | some (_, b) => b | none => []
  ⟨String.mk scheme, String.mk netloc, String.mk path, "", String.mk query, String.mk fragment⟩

/-- The schemes for which `urlparse` splits `;params` off the path
(`urllib.parse.uses_params`). -/
def uses_params : List String :=
  ["", "ftp", "hdl", "prospero", "http", "imap", "https", "shttp", "rtsp",
   "rtspu", "sip", "sips", "mms", "sftp", "tel"]

/-- `urllib.parse._splitparams`: split `;params` off the last path segment
(the `;` is searched only at or after the last `/`). -/
def splitparams (path : List Char) : List Char × List Char :=
  if path.contains '/' then
    let lastSeg := (path.reverse.takeWhile (fun c => c ≠ '/')).reverse
    if lastSeg.contains ';' then
      (path.take (path.length - lastSeg.length) ++ lastSeg.takeWhile (fun c => c ≠ ';'),
       (lastSeg.dropWhile (fun c => c ≠ ';')).drop 1)
    else (path, [])
  else (path.takeWhile (fun c => c ≠ ';'), (path.dropWhile (fun c => c ≠ ';')).drop 1)

/-- `urllib.parse.urlparse`.  A netloc containing `[` without `]` (or the
converse) raises `ValueError("Invalid IPv6 URL")`, modelled as
`Except.error`; otherwise `;params` is split off the path for the
`uses_params` schemes.  (The stricter bracketed-host validation added in
CPython 3.11 — a well-formedness check on the address between balanced
brackets — is not modelled; no input judged here carries a bracketed host,
and the URL claims are conditioned on the call returning.) -/
def pyUrlparse (url : String) : Except String PyUrl :=
  let p := urlsplitParts url
  if (p.netloc.data.contains '[' && !(p.netloc.data.contains ']')) ||
      (p.netloc.data.contains ']' && !(p.netloc.data.contains '[')) then
    Except.error "Invalid IPv6 URL"
  else if uses_params.contains p.scheme && p.path.data.contains ';' then
    let pr := splitparams p.path.data
    Except.ok { p with path := String.mk pr.1, params := String.mk pr.2 }
  else Except.ok p

/-- `urlparse(...).hostname or ""`: strip userinfo at the last `@`, take the
bracketed body for IPv6 literals or the part before `:` otherwise, lower-cased. -/
def pyHostname (netloc : String) : String :=
  let hostinfo := afterLastL '@' netloc.data
  let host :=
    if hostinfo.contains '[' then
      ((hostinfo.dropWhile (fun c => c ≠ '[')).drop 1).takeWhile (fun c => c ≠ ']')
    else hostinfo.takeWhile (fun c => c ≠ ':')
  String.mk (lowerL host)

/-- The port substring of a netloc, per `urllib.parse._hostinfo`: after the
last `@`; for a bracketed host, after the first `:` following the `]`;
otherwise after the first `:`.  Empty means no port. -/
def pyPortString (netloc : String) : List Char :=
  let hostinfo := afterLastL '@' netloc.data
  if hostinfo.contains '[' then
    let afterBr := (hostinfo.dropWhile (fun c => c ≠ '[')).drop 1
    let afterClose := (afterBr.dropWhile (fun c => c ≠ ']')).drop 1
    (afterClose.dropWhile (fun c => c ≠ ':')).drop 1
  else (hostinfo.dropWhile (fun c => c ≠ ':')).drop 1

/-- The numeric value of a string of decimal digits. -/
def digitsValueL (l : List Char) : ℕ :=
  l.foldl (fun acc c => 10 * acc + (c.toNat - '0'.toNat)) 0

/-- `ParseResult.port`, which the engine evaluates eagerly when building its
`parsed` payload: `None` for an absent or empty port substring; otherwise the
substring must be plain ASCII digits (`port.isdigit() and port.isascii()`)
with value at most 65535, else a `ValueError` escapes — modelled as
`Except.error` with the CPython messages (the `repr` suffix of the first is
reproduced with plain quotes). -/
def pyPort (netloc : String) : Except String (Option ℤ) :=
  let pstr := pyPortString netloc
  if pstr.isEmpty then Except.ok none
  else if pstr.all Char.isDigit then
    let v := digitsValueL pstr
    if v ≤ 65535 then Except.ok (some (v : ℤ))
    else Except.error "Port out of range 0-65535"
  else
    let ps := String.mk pstr
    Except.error s!"Port could not be cast to integer value as \x27{ps}\x27"

/-- `urllib.parse.unquote` percent-decoding (single-byte escapes; the inputs
exercised here are ASCII).  Fuel: one unit per consumed character. -/
def hexVal (c : Char) : Option Nat :=
  if c.isDigit then some (c.toNat - '0'.toNat)
  else if 'a' ≤ c.toLower && c.toLower ≤ 'f' then some (c.toLower.toNat - 'a'.toNat + 10)
  else none

/-- Percent-decode a character list (invalid escapes pass through unchanged). -/
def percentDecode : Nat → List Char → List Char
  | 0, l => l
  | _+1, [] => []
  | n+1, c :: cs =>
    if c = '%' then
      match cs with
      | a :: b :: rest =>
        match hexVal a, hexVal b with
        | some x, some y => Char.ofNat (16 * x + y) :: percentDecode n rest
        | _, _ => c :: percentDecode n cs
      | _ => c :: percentDecode n cs
    else c :: percentDecode n cs

/-- `unquote` on `String`. -/
def pyUnquote (s : String) : String :=
  String.mk (percentDecode s.data.length s.data)

/-! ## The external `tldextract` library -/

/-- IPv4 dotted quad, also `re.fullmatch(r"\d{1,3}(?:\.\d{1,3}){3}", host)`. -/
def isIpv4L (l : List Char) : Bool :=
  let parts := splitOnCharL '.' l
  parts.length == 4 &&
    parts.all (fun p => decide (1 ≤ p.length) && decide (p.length ≤ 3) && p.all Char.isDigit)

/-- Result shape of `tldextract.extract`. -/
structure ExtractResult where
  subdomain : String
  domain : String
  suffix : String
deriving DecidableEq

/-- Modelled from the spec: DomainParser (section 4.2) — a public-suffix-aware
split standing in for the external `tldextract` library, with a finite
public-suffix list covering the suffixes exercised by the engine, its
defaults and its tests. -/
def publicSuffixLabels : List (List String) :=
  [["com"], ["org"], ["net"], ["edu"], ["gov"], ["mil"], ["int"], ["io"], ["co"],
   ["ly"], ["me"], ["gl"], ["gd"], ["at"], ["gy"], ["do"], ["st"], ["cc"], ["link"],
   ["uk"], ["co", "uk"], ["ac", "uk"], ["gov", "uk"], ["ru"], ["cn"], ["de"], ["fr"],
   ["xyz"], ["top"], ["gq"], ["tk"], ["ml"], ["ga"], ["icu"], ["buzz"], ["rest"],
   ["monster"], ["zip"], ["click"], ["work"], ["info"], ["biz"], ["us"], ["ng"]]

/-- `tldextract.extract(host)`: longest known public suffix among the trailing
dot-separated labels; the registrable-domain label sits directly before it and
everything earlier is subdomain.  An IPv4 literal is returned whole in
`domain`; a host with no known suffix has `suffix = ""` and the last label as
`domain`. -/
def tldextract (host : String) : ExtractResult :=
  let cs := host.data
  if cs.isEmpty then ⟨"", "", ""⟩
  else if isIpv4L cs then ⟨"", host, ""⟩
  else
    let labels := (splitOnCharL '.' cs).map String.mk
    let n := labels.length
    let suffixLen := (List.range (n + 1)).foldl
      (fun acc k =>
        if decide (k ≠ 0) && publicSuffixLabels.contains (labels.drop (n - k)) then k else acc) 0
    let suffixStr := String.mk (intercalateL ['.'] ((labels.drop (n - suffixLen)).map String.data))
    let rest := labels.take (n - suffixLen)
    ⟨String.mk (intercalateL ['.'] (rest.dropLast.map String.data)), rest.getLastD "", suffixStr⟩

/-! ## Levenshtein distance (email_checker.levenshtein_distance) -/

/-- Inner loop of the dynamic program: given the remaining previous row
`prev[j], prev[j+1], ...`, the value `current[j]`, the character `c1` of the
outer row and the remaining characters of `s2`, produce `current[j+1], ...`. -/
def levInner : List Nat → Nat → Char → List Char → List Nat
  | pj :: pj1 :: ptail, last, c1, c2 :: s2tail =>
    let cur := min (pj1 + 1) (min (last + 1) (pj + (if c1 = c2 then 0 else 1)))
    cur :: levInner (pj1 :: ptail) cur c1 s2tail
  | _, _, _, _ => []

/-- Outer loop: fold each character of `s1` into a new row. -/
def levRows (s2 : List Char) : List Char → Nat → List Nat → List Nat
  | [], _, prev => prev
  | c1 :: s1tail, i, prev => levRows s2 s1tail (i + 1) ((i + 1) :: levInner prev (i + 1) c1 s2)

/-- The DP after the argument swap (`len(s1) >= len(s2)` here). -/
def levenshtein_core (s1 s2 : List Char) : Nat :=
  if s2.length = 0 then s1.length
  else (levRows s2 s1 0 (List.range (s2.length + 1))).getLastD 0

/-- `levenshtein_distance` from email_checker.py. -/
def levenshtein_distance (s1 s2 : String) : Nat :=
  if s1.length < s2.length then levenshtein_core s2.data s1.data
  else levenshtein_core s1.data s2.data

/-! ## difflib.SequenceMatcher (used by url_checker.is_similar_to_whitelisted) -/

/-- One row of the longest-common-block table: `row[j]` is the length of the
common run ending at `a[i]`/`b[j]`; `pshift` supplies `prevRow[j-1]`. -/
def fjRowAux (ai : Char) : List Char → List Nat → List Nat
  | [], _ => []
  | bj :: btail, pshift =>
    (if bj = ai then pshift.headD 0 + 1 else 0) :: fjRowAux ai btail pshift.tail

/-- Track the best block seen so far (strictly-greater updates keep the
earliest maximal block, as difflib does with no junk). -/
def bestInRow (i : Nat) (row : List Nat) (best : Nat × Nat × Nat) : Nat × Nat × Nat :=
  row.enum.foldl
    (fun acc jl => if jl.2 > acc.2.2 then (i + 1 - jl.2, jl.1 + 1 - jl.2, jl.2) else acc) best

/-- Scan the rows for all `i`. -/
def flmAux (b : List Char) : List Char → Nat → List Nat → (Nat × Nat × Nat) → (Nat × Nat × Nat)
  | [], _, _, best => best
  | ai :: atail, i, prev, best =>
    let row := fjRowAux ai b (0 :: prev)
    flmAux b atail (i + 1) row (bestInRow i row best)

/-- `SequenceMatcher.find_longest_match` over whole sequences (no junk:
autojunk only applies from length 200, far above any domain here). -/
def find_longest_match (a b : List Char) : Nat × Nat × Nat :=
  flmAux b a 0 (List.replicate b.length 0) (0, 0, 0)

/-- Total size of all matching blocks (the recursive decomposition of
`get_matching_blocks`).  Fuel bounds the recursion depth. -/
def matchingTotal : Nat → List Char → List Char → Nat
  | 0, _, _ => 0
  | fuel+1, a, b =>
    let m := find_longest_match a b
    if m.2.2 = 0 then 0
    else
      matchingTotal fuel (a.take m.1) (b.take m.2.1) + m.2.2 +
        matchingTotal fuel (a.drop (m.1 + m.2.2)) (b.drop (m.2.1 + m.2.2))

/-- `SequenceMatcher(None, a, b).ratio() >= 0.8`, decided exactly:
`2*M/(|a|+|b|) >= 4/5  ↔  2*(|a|+|b|) <= 5*M` (and the empty/empty
case has ratio 1). -/
def smAtLeastPoint8 (a b : List Char) : Bool :=
  Nat.ble (2 * (a.length + b.length)) (5 * matchingTotal (a.length + b.length + 1) a b)

/-! ## Character entropy (url_checker.entropy_score, used only via `> 0.9`) -/

/-- Exponentiation by structural recursion (so the kernel evaluates it
without the built-in `^` threshold). -/
def natPowL (b : Nat) : Nat → Nat
  | 0 => 1
  | n+1 => b * natPowL b n

/-- Decides `entropy_score(s) > 0.9` exactly.  `entropy_score` is
`min(E/6, 1)` with `E` the Shannon entropy of the character distribution, so
the threshold reads `E > 27/5`, i.e.
`sum over distinct c of v_c * log2 (n / v_c) > (27/5) * n`; raising `2` to
five times both sides turns it into the integer comparison
`n^(5n) > 2^(27n) * prod v_c^(5 v_c)` (strict in exactly the same cases). -/
def entropyGtPoint9 (s : String) : Bool :=
  let cs := s.data
  let n := cs.length
  let pr := cs.dedup.foldl (fun acc c => acc * natPowL (cs.count c) (5 * cs.count c)) 1
  Nat.blt (natPowL 2 (27 * n) * pr) (natPowL n (5 * n))

/-! ## URL rules (url_checker.load_url_rules / get_weights) -/

/-- The weight table of url_checker.get_weights (integer-valued, as in the
shipped configuration; stored here at face value, applied in half-points). -/
structure UrlWeights where
  ip_in_host : ℤ
  suspicious_tld : ℤ
  long_url : ℤ
  many_subdomains : ℤ
  hyphen_in_domain : ℤ
  punycode : ℤ
  suspicious_chars : ℤ
  suspicious_path_tokens : ℤ
  url_length_entropy : ℤ
  known_whitelist : ℤ
  suspicious_domain_token_long : ℤ
deriving DecidableEq

/-- Fallback weights of url_checker.get_weights. -/
def defaultUrlWeights : UrlWeights := ⟨25, 18, 6, 8, 6, 20, 6, 6, 5, -40, 6⟩

/-- A loaded URL rule set (the keys url_checker reads). -/
structure UrlRules where
  weights : UrlWeights
  suspicious_tlds : List String
  trusted_domains : List String
  phishing_keywords : List String
  detect_ip_urls : Bool
deriving DecidableEq

/-- The hard-coded fallback rule set of url_checker.load_url_rules. -/
def defaultUrlRules : UrlRules :=
  { weights := defaultUrlWeights
    suspicious_tlds := [".xyz", ".top", ".gq", ".tk", ".ml", ".ga", ".icu", ".buzz",
      ".rest", ".monster", ".zip", ".click", ".work", ".cn", ".ru"]
    trusted_domains := ["google.com", "paypal.com", "facebook.com", "youtube.com",
      "amazon.com", "netflix.com", "microsoft.com", "apple.com", "github.com", "linkedin.com"]
    phishing_keywords := ["login", "verify", "secure", "update", "unlock", "banking",
      "password", "confirm", "recovery", "account-security", "free-gift", "bonus",
      "promo", "alert", "suspend", "urgent", "auth", "2fa"]
    detect_ip_urls := true }

/-- State of an on-disk rule configuration file as seen by a loader. -/
inductive RuleFile (α : Type) where
  | missing : RuleFile α
  | corrupt : RuleFile α
  | present : α → RuleFile α

/-- url_checker.load_url_rules: `open` inside `try` with
`except FileNotFoundError` only — a missing file falls back to the built-in
defaults, while a file that exists but fails `json.load` raises an uncaught
`json.JSONDecodeError` (modelled as `Except.error`). -/
def load_url_rules : RuleFile UrlRules → Except String UrlRules
  | RuleFile.missing => Except.ok defaultUrlRules
  | RuleFile.corrupt => Except.error "json.JSONDecodeError"
  | RuleFile.present r => Except.ok r

/-! ## url_checker helpers -/

/-- url_checker.is_ip. -/
def is_ip (host : String) : Bool :=
  isIpv4L host.data || (host.data.headD ' ' = '[' && host.data.getLastD ' ' = ']')

/-- url_checker.contains_punycode. -/
def contains_punycode (host : String) : Bool :=
  occursIn "xn--".data (lowerL host.data)

/-- An indicator value: the source stores booleans, string lists, and (for
`entropy_score` only) the raw float estimate, which has no exact rational
form; only its thresholded use affects anything, so the value itself is an
opaque marker here. -/
inductive IndVal where
  | b : Bool → IndVal
  | ls : List String → IndVal
  | ent : IndVal
deriving DecidableEq

/-- `", ".join(parts)`. -/
def joinComma (l : List String) : String :=
  String.mk (intercalateL ", ".data (l.map String.data))

/-- Loop body of url_checker.is_similar_to_whitelisted.  The source iterates a
Python set built from the configured list; the iteration is modelled in the
literal list order (for the inputs settled concretely below the outcome does
not depend on the order). -/
def similarLoop (domain : List Char) : List String → Bool × Option String
  | [] => (false, none)
  | w :: rest =>
    let wl := w.data
    if domain == wl then (true, some w)
    else if smAtLeastPoint8 domain wl then (false, some w)
    else if (domain.length + 1 == wl.length || wl.length + 1 == domain.length) &&
        (occursIn wl domain || occursIn domain wl) then (false, some w)
    else if decide (domain.length > 5) && decide (wl.length > 5) &&
        (domain.drop 1 == wl.drop 1 || domain.dropLast == wl.dropLast) then (false, some w)
    else similarLoop domain rest

/-- url_checker.is_similar_to_whitelisted (threshold 0.8). -/
def is_similar_to_whitelisted (whitelist : List String) (domain : String) : Bool × Option String :=
  similarLoop (lowerL domain.data) whitelist

/-! ### The six suspicious domain-token patterns of step 11 -/

/-- `(.)\1{2,}`: some character repeated at least three times in a row. -/
def hasTripleRepeatAny : List Char → Bool
  | a :: b :: c :: rest => (a = b && b = c) || hasTripleRepeatAny (b :: c :: rest)
  | _ => false

/-- `(\w)\1{2,}`: some word character repeated at least three times in a row. -/
def hasTripleRepeatWord : List Char → Bool
  | a :: b :: c :: rest => (isWordChar a && a = b && b = c) || hasTripleRepeatWord (b :: c :: rest)
  | _ => false

/-- `(\w{2,})\1`: some word-character sequence of length at least two
immediately repeated. -/
def hasDoubledSeq (l : List Char) : Bool :=
  (List.range l.length).any (fun i =>
    (List.range l.length).any (fun km2 =>
      let k := km2 + 2
      decide (i + 2 * k ≤ l.length) &&
        (let seg := (l.drop i).take k
         seg.all isWordChar && ((l.drop (i + k)).take k == seg))))

/-- `(\w{3,})(\d+)`: at least three word characters directly followed by a
digit. -/
def hasWordRunThenDigit : List Char → Bool
  | a :: b :: c :: d :: rest =>
    (isWordChar a && isWordChar b && isWordChar c && d.isDigit) ||
      hasWordRunThenDigit (b :: c :: d :: rest)
  | _ => false

/-- `(\d+)(\w{3,})`: a digit directly followed by at least three word
characters. -/
def hasDigitThenWordRun : List Char → Bool
  | a :: b :: c :: d :: rest =>
    (a.isDigit && isWordChar b && isWordChar c && isWordChar d) ||
      hasDigitThenWordRun (b :: c :: d :: rest)
  | _ => false

/-- The gap `-?(?:\w+)?-?` between the two copies in the sixth pattern: at
most one leading dash, at most one trailing dash, word characters between. -/
def gapOk (g : List Char) : Bool :=
  let g1 := match g with | '-' :: t => t | _ => g
  let g2 := match g1.reverse with | '-' :: t => t.reverse | _ => g1
  g2.all isWordChar

/-- `(\w{3,})-?(?:\w+)?-?(\1)`: a word of length at least three occurring
twice with such a gap between the copies. -/
def hasRepeatedWordSep (l : List Char) : Bool :=
  (List.range l.length).any (fun i =>
    (List.range l.length).any (fun km3 =>
      let k := km3 + 3
      (List.range (l.length + 1)).any (fun j =>
        decide (i + k ≤ j) && decide (j + k ≤ l.length) &&
          (let w := (l.drop i).take k
           w.all isWordChar && ((l.drop j).take k == w) &&
             gapOk ((l.drop (i + k)).take (j - (i + k)))))))

/-- The ordered pattern list of step 11 (first match wins, as the source
breaks out of the loop). -/
def suspiciousDomainPatterns : List ((List Char → Bool) × String) :=
  [(hasTripleRepeatAny, "Repeated characters in domain"),
   (hasTripleRepeatWord, "Repeated characters in domain"),
   (hasDoubledSeq, "Repeated sequence in domain"),
   (hasWordRunThenDigit, "Numbers after brand name"),
   (hasDigitThenWordRun, "Numbers before brand name"),
   (hasRepeatedWordSep, "Repeated words with separators")]

/-! ## url_checker.analyze_url -/

/-- The `parsed` payload echoed by analyze_url.  Building it evaluates
`parsed.port`, which is where a port `ValueError` escapes the real function. -/
structure UrlParsed where
  scheme : String
  host : String
  root_domain : String
  subdomain : String
  path : String
  query : String
  port : Option ℤ
deriving DecidableEq

/-- The state accumulated by the check section of analyze_url, before the
final normalization (score in half-points). -/
structure UrlCoreOut where
  original : String
  score : ℤ
  reasons : List String
  indicators : List (String × IndVal)
  parsed : UrlParsed
deriving DecidableEq

/-- The checks of analyze_url, in source order, on a successfully parsed URL
(`parsed` and `port` are the values whose computation did not raise).
`score` is tracked in half-points (twice the Python float), so every
`score += w` of the source appears as `+ 2 * w`. -/
def url_checks (rules : UrlRules) (original : String) (parsed : PyUrl)
    (port : Option ℤ) : UrlCoreOut :=
  let WEIGHTS := rules.weights
  let SUSPICIOUS_TLDS := rules.suspicious_tlds.map (fun t => pyReplace t "." "")
  let ROOT_DOMAIN_WHITELIST := rules.trusted_domains
  let SUSPICIOUS_PATH_TOKENS := rules.phishing_keywords
  let DETECT_IP_URLS := rules.detect_ip_urls
  let host := pyHostname parsed.netloc
  let path := pyUnquote parsed.path
  let query := parsed.query
  let extracted := tldextract host
  let root_domain := String.mk (intercalateL ['.']
    (([extracted.domain, extracted.suffix].filter (fun p => p ≠ "")).map String.data))
  let subdomain := extracted.subdomain
  let parsed_info : UrlParsed := ⟨parsed.scheme, host, root_domain, subdomain, path, query, port⟩
  -- 1) host is an IP address (if enabled in rules)
  let ip_flag := is_ip host
  let indicators : List (String × IndVal) :=
    if DETECT_IP_URLS then [("ip_in_host", IndVal.b ip_flag)] else []
  let reasons : List String :=
    if DETECT_IP_URLS && ip_flag then
      ["Host is an IP address (not a domain) - from url_rules.json"] else []
  let score : ℤ := if DETECT_IP_URLS && ip_flag then 2 * WEIGHTS.ip_in_host else 0
  -- 2) suspicious / rare / known-bad TLDs
  let suffix_full := pyLower extracted.suffix
  let suffix_top := String.mk (afterLastL '.' suffix_full.data)
  let is_gov_or_cctld := suffix_top == "gov" || suffix_top.length == 2
  let tld_flag := SUSPICIOUS_TLDS.contains suffix_top && !is_gov_or_cctld
  let indicators := indicators ++ [("suspicious_tld", IndVal.b tld_flag)]
  let sfx := extracted.suffix
  let reasons := reasons ++
    (if is_gov_or_cctld then
      [s!"Top-level domain \x27.{suffix_full}\x27 is a trusted government or country-specific TLD"]
     else if tld_flag then
      [s!"Top-level domain \x27{sfx}\x27 is suspicious/unusual (from url_rules.json)"]
     else [])
  let score := if is_gov_or_cctld then score + 2 * (-20)
    else if tld_flag then score + 2 * WEIGHTS.suspicious_tld else score
  -- 3) very long URL
  let url_len := original.length
  let long_flag := decide (url_len > 100)
  let indicators := indicators ++ [("long_url", IndVal.b long_flag)]
  let reasons := reasons ++
    (if long_flag then [s!"URL length is long ({url_len} characters)"] else [])
  let score := if long_flag then score + 2 * WEIGHTS.long_url else score
  -- 4) many subdomains (ignoring "www" and "m")
  let clean_subdomain := String.mk (intercalateL ['.']
    ((splitOnCharL '.' subdomain.data).filter (fun p => !(["www".data, "m".data, []].contains p))))
  let sub_count := clean_subdomain.data.count '.' + (if clean_subdomain ≠ "" then 1 else 0)
  let many_subdomains_flag := decide (sub_count ≥ 2) && !is_gov_or_cctld
  let indicators := indicators ++ [("many_subdomains", IndVal.b many_subdomains_flag)]
  let reasons := reasons ++
    (if many_subdomains_flag then [s!"Excessive subdomains detected ({sub_count})"] else [])
  let score := if many_subdomains_flag then score + 2 * WEIGHTS.many_subdomains else score
  -- 5) hyphen in domain
  let hyphen_flag := extracted.domain.data.contains '-' && !is_gov_or_cctld
  let indicators := indicators ++ [("hyphen_in_domain", IndVal.b hyphen_flag)]
  let reasons := reasons ++
    (if hyphen_flag then ["Hyphen found in root domain (unusual for official entities)"] else [])
  let score := if hyphen_flag then score + 2 * WEIGHTS.hyphen_in_domain else score
  -- 6) punycode
  let puny_flag := contains_punycode host
  let indicators := indicators ++ [("punycode", IndVal.b puny_flag)]
  let reasons := reasons ++
    (if puny_flag then ["Punycode found in host (possible homograph attack)"] else [])
  let score := if puny_flag then score + 2 * WEIGHTS.punycode else score
  -- 7) suspicious characters in the raw URL
  let suspicious_chars := original.data.any
      (fun c => ['@', '^', '[', ']', Char.ofNat 123, Char.ofNat 125, '<', '>', '\\', '|'].contains c)
    && !is_gov_or_cctld
  let indicators := indicators ++ [("suspicious_chars", IndVal.b suspicious_chars)]
  let reasons := reasons ++
    (if suspicious_chars then ["Suspicious characters detected in URL"] else [])
  let score := if suspicious_chars then score + 2 * WEIGHTS.suspicious_chars else score
  -- 8) suspicious path tokens (the Python set is modelled in first-occurrence order)
  let path_tokens := ((findallRuns (fun c => c.isAlphanum || c = '_' || c = '-')
    (lowerL path.data)).map String.mk).dedup
  let suspicious_tokens_found := path_tokens.filter (fun t => SUSPICIOUS_PATH_TOKENS.contains t)
  let indicators := indicators ++ [("suspicious_path_tokens", IndVal.ls suspicious_tokens_found)]
  let tokens_joined := joinComma (sortStrs suspicious_tokens_found)
  let reasons := reasons ++
    (if !suspicious_tokens_found.isEmpty then
      [s!"Suspicious path tokens found: {tokens_joined}"] else [])
  let score := if !suspicious_tokens_found.isEmpty then
    score + 2 * WEIGHTS.suspicious_path_tokens else score
  -- 9) entropy-ish check for path+query
  let ent_high := entropyGtPoint9 (pyStrip (path ++ " " ++ query))
  let indicators := indicators ++ [("entropy_score", IndVal.ent)]
  let reasons := reasons ++
    (if ent_high && !is_gov_or_cctld then
      ["High character entropy in path/query (random-looking)"] else [])
  let score := if ent_high && !is_gov_or_cctld then
    score + 2 * WEIGHTS.url_length_entropy else score
  -- 10) whitelist and misspelling check
  let sim := is_similar_to_whitelisted ROOT_DOMAIN_WHITELIST root_domain
  let is_whitelisted := sim.1
  let matched_whitelist := sim.2
  let matchedTruthy := match matched_whitelist with | some w => w != "" | none => false
  let indicators := indicators ++ [("known_whitelist", IndVal.b is_whitelisted)]
  let mw := matched_whitelist.getD ""
  let reasons := reasons ++
    (if is_whitelisted || is_gov_or_cctld then
      [s!"Trust verified: Result is within a secure/official name space (\x27{root_domain}\x27)"]
     else if matchedTruthy then
      [s!"Alert: Domain \x27{root_domain}\x27 mimics trusted brand \x27{mw}\x27"]
     else [])
  let score := if is_whitelisted || is_gov_or_cctld then score + 2 * (-40)
    else if matchedTruthy then score + 2 * 65 else score
  -- 11) additional checks for whitelisted domains
  let inWhitelistBranch := is_whitelisted || matchedTruthy
  let domain_tokens := splitOnPredL (fun c => c = '-' || c = '.') extracted.domain.data
  let domain_tokens_ci := domain_tokens.map lowerL
  let firstPattern := if inWhitelistBranch then
      suspiciousDomainPatterns.find? (fun pr => domain_tokens_ci.any pr.1)
    else none
  let reasons := reasons ++
    (match firstPattern with
     | some pr => [s!"Suspicious domain pattern detected: {pr.2}"]
     | none => [])
  let score := if firstPattern.isSome then score + 2 * 30 else score
  let suspicious_token_flag := domain_tokens.any (fun tok => decide (tok.length > 20))
  let indicators := indicators ++
    (if inWhitelistBranch then
      [("suspicious_domain_token_long", IndVal.b suspicious_token_flag)] else [])
  let reasons := reasons ++
    (if inWhitelistBranch && suspicious_token_flag then
      ["Unusually long token in domain name"] else [])
  let score := if inWhitelistBranch && suspicious_token_flag then
    score + 2 * WEIGHTS.suspicious_domain_token_long else score
  ⟨original, score, reasons, indicators, parsed_info⟩

/-- The check section of analyze_url for a non-empty URL string, including
the two raising steps that precede the checks in the source: `urlparse`
(line 117, `ValueError("Invalid IPv6 URL")`) and the eager `parsed.port`
evaluation in the `parsed` payload (line 133, port `ValueError`).  An escaped
exception is `Except.error`. -/
def url_core (rules : UrlRules) (url : String) : Except String UrlCoreOut :=
  let original := pyStrip url
  let test_url := if strIn "://" original then original else "http://" ++ original
  match pyUrlparse test_url with
  | Except.error e => Except.error e
  | Except.ok parsed =>
    match pyPort parsed.netloc with
    | Except.error e => Except.error e
    | Except.ok port => Except.ok (url_checks rules original parsed port)

/-- The result record returned by analyze_url. -/
structure UrlResult where
  url : Option String
  score : ℤ
  verdict : String
  reasons : List String
  indicators : List (String × IndVal)
  parsed : Option UrlParsed
deriving DecidableEq

/-- The final score normalization and verdict mapping of analyze_url. -/
def finalize_url (c : UrlCoreOut) : UrlResult :=
  let mapped := mappedScore c.score
  ⟨some c.original, mapped, verdictOf mapped, orSentinel c.reasons, c.indicators, some c.parsed⟩

/-- The early return of analyze_url for a falsy or non-string argument. -/
def url_invalid_result (url : Option String) : UrlResult :=
  ⟨url, 100, "phishing", ["No URL provided or wrong type"],
   [("invalid_input", IndVal.b true)], none⟩

/-- url_checker.analyze_url.  The argument is `Option String`: `none` models a
non-string (e.g. `None`) argument; `not url or not isinstance(url, str)` is
true exactly for `none` and the empty string.  The function is not total: on
a URL with a malformed port or an unbalanced IPv6 bracket the `ValueError`
from `url_core` propagates to the caller (`Except.error`). -/
def analyze_url (rules : UrlRules) (url : Option String) : Except String UrlResult :=
  match url with
  | none => Except.ok (url_invalid_result none)
  | some s =>
    if s = "" then Except.ok (url_invalid_result (some s))
    else (url_core rules s).map finalize_url

/-! ## Email rules and weights (email_checker) -/

/-- The module-level WEIGHTS dict of email_checker (hard-coded, not loaded
from the rule file).  Stored at face value, applied in half-points. -/
structure EmailWeights where
  suspicious_sender_domain : ℤ
  sender_domain_mismatch : ℤ
  urgent_language : ℤ
  info_request : ℤ
  dangerous_attachment : ℤ
  suspicious_link : ℤ
  link_domain_mismatch : ℤ
  too_good_to_be_true : ℤ
  suspicious_subject : ℤ
  spelling_errors : ℤ
  generic_greeting : ℤ
  typosquatting : ℤ
deriving DecidableEq

/-- email_checker.WEIGHTS. -/
def email_WEIGHTS : EmailWeights := ⟨20, 25, 20, 25, 20, 15, 20, 25, 10, 25, 5, 55⟩

/-- email_checker.TRUSTED_BRANDS. -/
def TRUSTED_BRANDS : List String := ["google", "support", "noreply", "github", "opay", "the5ers"]

/-- A loaded email rule set (the keys email_checker reads). -/
structure EmailRules where
  dangerous_attachments : List String
  urgent_phrases : List String
  info_request_phrases : List String
  suspicious_sender_domains : List String
  link_mismatch_detection : Bool
deriving DecidableEq

/-- The hard-coded fallback rule set of email_checker.load_email_rules. -/
def defaultEmailRules : EmailRules :=
  { dangerous_attachments := [".exe", ".zip", ".rar", ".7z", ".bat", ".scr", ".js",
      ".vbs", ".jar", ".pdf"]
    urgent_phrases := ["urgent", "immediately", "your account will be closed",
      "last warning", "suspended", "final notice", "verify now", "action required",
      "unauthorized access", "security alert"]
    info_request_phrases := ["password", "credit card", "debit card", "security code",
      "otp", "2fa", "pin", "verify your identity", "confirm your details"]
    suspicious_sender_domains := ["outlook.com", "gmail.com", "yahoo.com", "hotmail.com"]
    link_mismatch_detection := true }

/-- email_checker.load_email_rules: same `try`/`except FileNotFoundError`
shape as the URL loader. -/
def load_email_rules : RuleFile EmailRules → Except String EmailRules
  | RuleFile.missing => Except.ok defaultEmailRules
  | RuleFile.corrupt => Except.error "json.JSONDecodeError"
  | RuleFile.present r => Except.ok r

/-! ## email_checker helpers -/

/-- email_checker.extract_domain_from_email. -/
def extract_domain_from_email (email : String) : String :=
  if email == "" || !(strIn "@" email) then ""
  else pyStrip (pyLower (String.mk (afterLastL '@' email.data)))

/-- A character that terminates a link match:
the excluded class of `r'https?://[^\s<>"{}|\\^`\[\]]+'`. -/
def linkStopChar (c : Char) : Bool :=
  pyIsSpace c ||
    ['<', '>', '"', Char.ofNat 123, Char.ofNat 125, '|', '\\', '^',
     Char.ofNat 96, '[', ']'].contains c

/-- Try to match `https?://` (case-insensitive) at the head; returns the
matched characters and the remainder. -/
def matchUrlStart : List Char → Option (List Char × List Char)
  | h :: t1 :: t2 :: p :: rest =>
    if h.toLower = 'h' && t1.toLower = 't' && t2.toLower = 't' && p.toLower = 'p' then
      match rest with
      | s :: c1 :: c2 :: c3 :: r =>
        if s.toLower = 's' && c1 = ':' && c2 = '/' && c3 = '/' then
          some ([h, t1, t2, p, s, c1, c2, c3], r)
        else if s = ':' && c1 = '/' && c2 = '/' then
          some ([h, t1, t2, p, s, c1, c2], c3 :: r)
        else none
      | _ => none
    else none
  | _ => none

/-- `re.findall` scan for the link pattern: at each position try to match
`https?://` followed by at least one allowed character; a match consumes its
text, otherwise the scan advances one character.  Fuel: list length. -/
def extractLinksAux : Nat → List Char → List (List Char)
  | 0, _ => []
  | _+1, [] => []
  | n+1, c :: cs =>
    match matchUrlStart (c :: cs) with
    | some (pre, rest) =>
      let run := rest.takeWhile (fun ch => !(linkStopChar ch))
      if run.isEmpty then extractLinksAux n cs
      else (pre ++ run) :: extractLinksAux n (rest.dropWhile (fun ch => !(linkStopChar ch)))
    | none => extractLinksAux n cs

/-- email_checker.extract_links (also used, identically, by sms_checker). -/
def extract_links (text : String) : List String :=
  (extractLinksAux text.data.length text.data).map String.mk

/-- A character of the class `[il1|]` (case-insensitive). -/
def isIlChar (c : Char) : Bool := ['i', 'l', '1', '|'].contains c.toLower

/-- Non-overlapping count of `[il1|][il1|][il1|]` matches, as `re.findall`. -/
def countTripleIl : List Char → Nat
  | a :: b :: c :: rest =>
    if isIlChar a && isIlChar b && isIlChar c then 1 + countTripleIl rest
    else countTripleIl (b :: c :: rest)
  | _ => 0

/-- email_checker.count_spelling_errors: digits plus triple-`[il1|]` runs. -/
def count_spelling_errors (text : String) : Nat :=
  (text.data.filter Char.isDigit).length + countTripleIl text.data

/-- The canned greeting list of email_checker.is_generic_greeting. -/
def generic_greetings : List String :=
  ["dear user", "dear customer", "dear sir/madam", "hello", "hi there"]

/-- email_checker.is_generic_greeting: greeting inside the first 100
characters of the lower-cased text. -/
def is_generic_greeting (text : String) : Bool :=
  let tl := (lowerL text.data).take 100
  generic_greetings.any (fun g => occursIn g.data tl)

/-- The link-domain-mismatch loop of analyze_email step 2: the first link
whose registrable domain differs from the sender registrable domain, returned
as `(link_root, sender_root)`.  The loop body is wrapped in
`try/except Exception: pass`, so a link whose parse raises is skipped. -/
def linkMismatchLoop (sender_domain : String) : List String → Option (String × String)
  | [] => none
  | link :: restLinks =>
    match pyUrlparse link with
    | Except.error _ => linkMismatchLoop sender_domain restLinks
    | Except.ok parsed_url =>
      let link_domain := pyLower parsed_url.netloc
      let link_domain_clean := pyReplace link_domain "www." ""
      let sender_domain_clean := pyReplace sender_domain "www." ""
      if link_domain_clean != "" && sender_domain_clean != "" then
        let lext := tldextract link_domain
        let sext := tldextract sender_domain
        let link_root := pyLower (lext.domain ++ "." ++ lext.suffix)
        let sender_root := pyLower (sext.domain ++ "." ++ sext.suffix)
        if link_root != sender_root && link_root != "" then some (link_root, sender_root)
        else linkMismatchLoop sender_domain restLinks
      else linkMismatchLoop sender_domain restLinks

/-! ## email_checker.analyze_email -/

/-- The state accumulated by the check section of analyze_email (score in
half-points). -/
structure EmailCoreOut where
  sender : String
  subject : String
  score : ℤ
  reasons : List String
  indicators : List (String × IndVal)
  links_found : List String
  attachments_found : List String
deriving DecidableEq

/-- The checks of analyze_email, in source order, on the normalized inputs.
`score` is in half-points: each `score += w` appears as `+ 2 * w`, and the
half-weight body-mention bonus `WEIGHTS["dangerous_attachment"] * 0.5`
appears as `+ email_WEIGHTS.dangerous_attachment`. -/
def email_core (rules : EmailRules) (sender subject content : String)
    (attachments_found : List String) : EmailCoreOut :=
  let full_text := pyLower (subject ++ " " ++ content)
  -- 0) typosquatting / brand impersonation (first brand at edit distance in (0, 2])
  let sender_domain := extract_domain_from_email sender
  let sld := pyLower (tldextract sender_domain).domain
  let typoBrand :=
    if sender_domain != "" then
      TRUSTED_BRANDS.find? (fun brand =>
        sld != brand &&
          (let dist := levenshtein_distance sld brand
           decide (0 < dist) && decide (dist ≤ 2)))
    else none
  let reasons : List String :=
    match typoBrand with
    | some brand =>
      [s!"Typosquatting detected: \x27{sender_domain}\x27 mimics trusted brand \x27{brand}\x27"]
    | none => []
  let score : ℤ := if typoBrand.isSome then 2 * 75 else 0
  let indicators : List (String × IndVal) :=
    if typoBrand.isSome then [("typosquatting", IndVal.b true)] else []
  -- 0.5) local-part brand impersonation
  let local_part :=
    if strIn "@" sender then pyLower (String.mk (beforeFirstL '@' sender.data)) else ""
  let sender_sld := if sender_domain != "" then pyLower (tldextract sender_domain).domain else ""
  let implBrand :=
    if local_part != "" then
      TRUSTED_BRANDS.find? (fun brand =>
        !(["support", "noreply"].contains brand) && strIn brand local_part &&
          sender_sld != brand)
    else none
  let reasons := reasons ++
    (match implBrand with
     | some brand =>
       [s!"Trusted brand \x27{brand}\x27 found in local-part of email (potential impersonation)"]
     | none => [])
  let score := if implBrand.isSome then score + 2 * 55 else score
  let indicators := indicators ++
    (if implBrand.isSome then [("brand_impersonation_local", IndVal.b true)] else [])
  -- 1) suspicious sender domain
  let suspicious_sender_flag := rules.suspicious_sender_domains.contains sender_domain
  let indicators := indicators ++
    [("suspicious_sender_domain", IndVal.b suspicious_sender_flag)]
  let reasons := reasons ++
    (if suspicious_sender_flag then
      [s!"Sender domain \x27{sender_domain}\x27 is commonly used in phishing"] else [])
  let score := if suspicious_sender_flag then
    score + 2 * email_WEIGHTS.suspicious_sender_domain else score
  -- 2) extract and analyze links
  let links_found := extract_links full_text
  let has_links := !links_found.isEmpty
  let indicators := indicators ++ [("has_links", IndVal.b has_links)]
  let nLinks := links_found.length
  let reasons := reasons ++ (if has_links then [s!"Found {nLinks} link(s) in email"] else [])
  let score := if has_links then score + 2 * email_WEIGHTS.suspicious_link else score
  let mismatch :=
    if has_links && sender_domain != "" && rules.link_mismatch_detection then
      linkMismatchLoop sender_domain links_found
    else none
  let indicators := indicators ++
    (if mismatch.isSome then [("link_domain_mismatch", IndVal.b true)] else [])
  let lr := (mismatch.getD ("", "")).1
  let sr := (mismatch.getD ("", "")).2
  let reasons := reasons ++
    (if mismatch.isSome then
      [s!"Link domain \x27{lr}\x27 doesn\x27t match sender domain \x27{sr}\x27"] else [])
  let score := if mismatch.isSome then score + 2 * email_WEIGHTS.link_domain_mismatch else score
  -- 3) urgent language
  let urgent_found := rules.urgent_phrases.filter (fun phrase => strIn (pyLower phrase) full_text)
  let indicators := indicators ++ [("urgent_language", IndVal.b (!urgent_found.isEmpty))]
  let urgentJoined := joinComma (urgent_found.take 3)
  let reasons := reasons ++
    (if !urgent_found.isEmpty then
      [s!"Urgent/fear-based language detected: {urgentJoined}"] else [])
  let score := if !urgent_found.isEmpty then score + 2 * email_WEIGHTS.urgent_language else score
  -- 4) information request phrases
  let info_found := rules.info_request_phrases.filter (fun phrase => strIn (pyLower phrase) full_text)
  let indicators := indicators ++ [("info_request", IndVal.b (!info_found.isEmpty))]
  let infoJoined := joinComma (info_found.take 3)
  let reasons := reasons ++
    (if !info_found.isEmpty then [s!"Requests sensitive information: {infoJoined}"] else [])
  let score := if !info_found.isEmpty then score + 2 * email_WEIGHTS.info_request else score
  -- 5) dangerous attachments
  let dangerous_attachments := attachments_found.filter (fun att =>
    rules.dangerous_attachments.any (fun ext => pyEndsWith (pyLower att) (pyLower ext)))
  let indicators := indicators ++
    [("dangerous_attachment", IndVal.b (!dangerous_attachments.isEmpty))]
  let attJoined := joinComma dangerous_attachments
  let reasons := reasons ++
    (if !dangerous_attachments.isEmpty then
      [s!"Dangerous attachment(s) detected: {attJoined}"] else [])
  let score := if !dangerous_attachments.isEmpty then
    score + 2 * email_WEIGHTS.dangerous_attachment else score
  let mention := rules.dangerous_attachments.any (fun ext => strIn (pyLower ext) full_text)
  let reasons := reasons ++
    (if mention && dangerous_attachments.isEmpty then
      ["Email mentions dangerous file types"] else [])
  let score := if mention && dangerous_attachments.isEmpty then
    score + email_WEIGHTS.dangerous_attachment else score
  -- 6) "too good to be true" offers
  let promo_keywords := ["won", "reward", "free", "congratulations", "gift", "prize",
    "bonus", "lottery"]
  let promo_found := promo_keywords.filter (fun kw => strIn kw full_text)
  let indicators := indicators ++ [("too_good_to_be_true", IndVal.b (!promo_found.isEmpty))]
  let promoJoined := joinComma (promo_found.take 3)
  let reasons := reasons ++
    (if !promo_found.isEmpty then [s!"Suspicious promotional language: {promoJoined}"] else [])
  let score := if !promo_found.isEmpty then score + 2 * email_WEIGHTS.too_good_to_be_true else score
  -- 7) suspicious subject line
  let subject_flag := subject != "" &&
    (["urgent", "action required", "verify", "suspended", "locked"].any
      (fun ind => strIn ind (pyLower subject)))
  let indicators := indicators ++
    (if subject_flag then [("suspicious_subject", IndVal.b true)] else [])
  let reasons := reasons ++ (if subject_flag then ["Suspicious subject line detected"] else [])
  let score := if subject_flag then score + 2 * email_WEIGHTS.suspicious_subject else score
  -- 8) spelling errors / typosquatting in sender
  let spelling_errors := count_spelling_errors sender
  let indicators := indicators ++
    (if sender != "" then [("spelling_errors", IndVal.b (decide (spelling_errors > 0)))] else [])
  let reasons := reasons ++
    (if sender != "" && decide (spelling_errors > 0) then
      ["Potential spelling errors or typosquatting in sender address"] else [])
  let score := if sender != "" && decide (spelling_errors > 0) then
    score + 2 * email_WEIGHTS.spelling_errors else score
  -- 9) generic greeting
  let greet := is_generic_greeting content
  let indicators := indicators ++ (if greet then [("generic_greeting", IndVal.b true)] else [])
  let reasons := reasons ++
    (if greet then ["Uses generic greeting instead of personal name"] else [])
  let score := if greet then score + 2 * email_WEIGHTS.generic_greeting else score
  ⟨sender, subject, score, reasons, indicators, links_found, attachments_found⟩

/-- The result record returned by analyze_email. -/
structure EmailResult where
  sender : String
  subject : String
  score : ℤ
  verdict : String
  reasons : List String
  indicators : List (String × IndVal)
  links_found : List String
  attachments_found : List String
deriving DecidableEq

/-- The final score normalization and verdict mapping of analyze_email. -/
def finalize_email (c : EmailCoreOut) : EmailResult :=
  let mapped := mappedScore c.score
  ⟨c.sender, c.subject, mapped, verdictOf mapped, orSentinel c.reasons, c.indicators,
   c.links_found, c.attachments_found⟩

/-- email_checker.analyze_email: all arguments optional, normalized by
`(x or "").strip()` (and `attachments or []`). -/
def analyze_email (rules : EmailRules) (sender subject content : Option String)
    (attachments : Option (List String)) : EmailResult :=
  finalize_email (email_core rules (pyStrip (sender.getD "")) (pyStrip (subject.getD ""))
    (pyStrip (content.getD "")) (attachments.getD []))

/-! ## SMS rules and weights (sms_checker) -/

/-- The weight table of sms_checker.get_weights (integer-valued; applied in
half-points). -/
structure SmsWeights where
  suspicious_sender_number : ℤ
  invalid_number_format : ℤ
  shortened_url : ℤ
  urgent_language : ℤ
  phishing_keywords : ℤ
  info_request : ℤ
  unexpected_action : ℤ
  too_good_to_be_true : ℤ
  suspicious_link : ℤ
  link_sender_mismatch : ℤ
  bank_mention_mismatch : ℤ
  suspicious_sender_name : ℤ
  no_contact_info : ℤ
  excessive_special_chars : ℤ
  excessive_caps : ℤ
deriving DecidableEq

/-- Fallback weights of sms_checker.get_weights. -/
def defaultSmsWeights : SmsWeights := ⟨25, 10, 30, 20, 15, 30, 25, 15, 25, 30, 15, 15, 5, 10, 10⟩

/-- A loaded SMS rule set (the keys sms_checker reads). -/
structure SmsRules where
  weights : SmsWeights
  suspicious_numbers : List String
  urgent_phrases : List String
  phishing_keywords : List String
  unexpected_action_phrases : List String
deriving DecidableEq

/-- The hard-coded fallback rule set of sms_checker.load_sms_rules. -/
def defaultSmsRules : SmsRules :=
  { weights := defaultSmsWeights
    suspicious_numbers := ["+000", "+999", "unknown", "private"]
    urgent_phrases := ["urgent", "verify now", "your account is locked", "security alert",
      "click this link", "your bank account is blocked", "reset immediately"]
    phishing_keywords := ["bank", "login", "verify", "password", "click", "promo",
      "free", "bonus", "gift"]
    unexpected_action_phrases := ["send your details", "provide your otp",
      "confirm your password", "share your pin"] }

/-- sms_checker.load_sms_rules: same `try`/`except FileNotFoundError` shape
as the other loaders. -/
def load_sms_rules : RuleFile SmsRules → Except String SmsRules
  | RuleFile.missing => Except.ok defaultSmsRules
  | RuleFile.corrupt => Except.error "json.JSONDecodeError"
  | RuleFile.present r => Except.ok r

/-! ## sms_checker helpers -/

/-- sms_checker.is_suspicious_number. -/
def is_suspicious_number (number : String) : Bool :=
  if number == "" then false
  else
    let number_lower := pyLower number
    ["+000", "+999", "unknown", "private", "blocked", "anonymous"].any
      (fun pat => strIn pat number_lower)

/-- The shortener-domain list of sms_checker.is_shortened_url. -/
def shortened_domains : List String :=
  ["bit.ly", "tinyurl.com", "t.co", "goo.gl", "ow.ly", "is.gd", "short.link",
   "rebrand.ly", "cutt.ly", "buff.ly", "adf.ly", "tiny.cc", "shorturl.at",
   "rb.gy", "bit.do", "shorte.st"]

/-- sms_checker.is_shortened_url (`except: return False`). -/
def is_shortened_url (url : String) : Bool :=
  match pyUrlparse url with
  | Except.error _ => false
  | Except.ok parsed =>
    let domain := pyReplace (pyLower parsed.netloc) "www." ""
    shortened_domains.any (fun sd => strIn sd domain)

/-- sms_checker.extract_domain_from_link (`except: return ""`). -/
def extract_domain_from_link (url : String) : String :=
  match pyUrlparse url with
  | Except.error _ => ""
  | Except.ok parsed =>
    let host := pyLower parsed.netloc
    if host == "" then ""
    else
      let ext := tldextract host
      if ext.domain != "" && ext.suffix != "" then ext.domain ++ "." ++ ext.suffix
      else host

/-- The service-keyword list of sms_checker.check_sender_link_mismatch. -/
def sms_service_keywords : List String :=
  ["bank", "paypal", "amazon", "apple", "google", "microsoft", "netflix", "pay"]

/-- sms_checker.check_sender_link_mismatch. -/
def check_sender_link_mismatch (sender : String) (links : List String) : Bool :=
  if sender == "" || links.isEmpty then false
  else
    let sender_lower := pyLower sender
    if !(sms_service_keywords.any (fun kw => strIn kw sender_lower)) then false
    else
      let link_domains := (links.map extract_domain_from_link).filter (fun d => d != "")
      link_domains.any (fun link_domain =>
        sms_service_keywords.any (fun kw => strIn kw sender_lower && !(strIn kw link_domain)))

/-- Occurrences of `\b<kw>\b` in `text` (counted at every boundary-valid
position; for the alphabetic keywords used here this coincides with the
non-overlapping `re.findall` count, since a match cannot start inside a
previous one without violating the word boundary). -/
def countBounded (text kw : List Char) : Nat :=
  if kw.isEmpty then 0
  else
    (List.range (text.length + 1)).countP (fun i =>
      decide (i + kw.length ≤ text.length) &&
      ((text.drop i).take kw.length == kw) &&
      (decide (i = 0) || !(isWordChar (text.getD (i - 1) ' '))) &&
      (decide (i + kw.length = text.length) || !(isWordChar (text.getD (i + kw.length) ' '))))

/-- sms_checker.count_phishing_keywords. -/
def count_phishing_keywords (text : String) (keywords : List String) : Nat :=
  keywords.foldl (fun acc kw => acc + countBounded (lowerL text.data) kw.data) 0

/-- `re.match(r'^\+?[0-9\s\-\(\)]{7,}$', number)` as a Boolean. -/
def matches_number_format (number : String) : Bool :=
  let l := number.data
  let rest := match l with | '+' :: t => t | _ => l
  decide (rest.length ≥ 7) &&
    rest.all (fun c => c.isDigit || pyIsSpace c || ['-', '(', ')'].contains c)

/-- The special-character class of sms_checker check 11
(`[!@#$%^&*()_+\-=\[\]{};\':"\\|,.<>?]`). -/
def sms_special_chars : List Char :=
  ['!', '@', '#', '$', '%', '^', '&', '*', '(', ')', '_', '+', '-', '=', '[', ']',
   Char.ofNat 123, Char.ofNat 125, ';', Char.ofNat 39, ':', '"', '\\', '|', ',', '.', '<', '>', '?']

/-! ## sms_checker.analyze_sms -/

/-- The state accumulated by the check section of analyze_sms (score in
half-points). -/
structure SmsCoreOut where
  sender : String
  number : String
  content : String
  score : ℤ
  reasons : List String
  indicators : List (String × IndVal)
  links_found : List String
deriving DecidableEq

/-- The checks of analyze_sms, in source order, on the normalized inputs.
`score` is in half-points: each `score += w` appears as `+ 2 * w`, and the
keyword bonus `min(W * (count / 2), W * 2)` appears as
`min (W * count) (4 * W)`. -/
def sms_core (rules : SmsRules) (sender number content : String) : SmsCoreOut :=
  let WEIGHTS := rules.weights
  let full_text := pyLower content
  -- 1) suspicious sender number
  let suspicious_number_flag :=
    (rules.suspicious_numbers.any (fun pat => strIn (pyLower pat) (pyLower number))) ||
      is_suspicious_number number
  let indicators : List (String × IndVal) :=
    if number != "" then [("suspicious_sender_number", IndVal.b suspicious_number_flag)] else []
  let reasons : List String :=
    if number != "" && suspicious_number_flag then
      [s!"Suspicious sender number: {number} (from sms_rules.json)"] else []
  let score : ℤ :=
    if number != "" && suspicious_number_flag then 2 * WEIGHTS.suspicious_sender_number else 0
  let invalid_fmt := number != "" && !(matches_number_format number)
  let indicators := indicators ++
    (if invalid_fmt then [("invalid_number_format", IndVal.b true)] else [])
  let reasons := reasons ++
    (if invalid_fmt then ["Invalid or unusual phone number format"] else [])
  let score := if invalid_fmt then score + 2 * WEIGHTS.invalid_number_format else score
  -- 2) extract and analyze links
  let links_found := extract_links content
  let has_links := !links_found.isEmpty
  let indicators := indicators ++ [("has_links", IndVal.b has_links)]
  let nLinks := links_found.length
  let reasons := reasons ++ (if has_links then [s!"Found {nLinks} link(s) in SMS"] else [])
  let score := if has_links then score + 2 * WEIGHTS.suspicious_link else score
  let shortened_found := links_found.filter is_shortened_url
  let short_flag := has_links && !shortened_found.isEmpty
  let indicators := indicators ++
    (if short_flag then [("shortened_url", IndVal.b true)] else [])
  let shortJoined := joinComma (shortened_found.take 2)
  let reasons := reasons ++
    (if short_flag then [s!"Shortened URL(s) detected: {shortJoined}"] else [])
  let score := if short_flag then score + 2 * WEIGHTS.shortened_url else score
  let sender_mismatch := has_links && sender != "" && check_sender_link_mismatch sender links_found
  let indicators := indicators ++
    (if sender_mismatch then [("link_sender_mismatch", IndVal.b true)] else [])
  let reasons := reasons ++
    (if sender_mismatch then ["Links in SMS don\x27t match the claimed sender service"] else [])
  let score := if sender_mismatch then score + 2 * WEIGHTS.link_sender_mismatch else score
  -- 3) urgent language
  let urgent_found := rules.urgent_phrases.filter (fun phrase => strIn (pyLower phrase) full_text)
  let indicators := indicators ++ [("urgent_language", IndVal.b (!urgent_found.isEmpty))]
  let urgentJoined := joinComma (urgent_found.take 3)
  let reasons := reasons ++
    (if !urgent_found.isEmpty then
      [s!"Urgent/fear-based language detected: {urgentJoined}"] else [])
  let score := if !urgent_found.isEmpty then score + 2 * WEIGHTS.urgent_language else score
  -- 4) phishing keywords
  let keyword_count := count_phishing_keywords full_text rules.phishing_keywords
  let indicators := indicators ++
    [("phishing_keywords", IndVal.b (decide (keyword_count > 0)))]
  let reasons := reasons ++
    (if decide (keyword_count > 0) then
      [s!"Phishing-related keywords detected ({keyword_count} occurrences)"] else [])
  let score := if decide (keyword_count > 0) then
    score + min (WEIGHTS.phishing_keywords * keyword_count) (4 * WEIGHTS.phishing_keywords)
    else score
  -- 5) unexpected action phrases
  let unexpected_found := rules.unexpected_action_phrases.filter
    (fun phrase => strIn (pyLower phrase) full_text)
  let indicators := indicators ++ [("unexpected_action", IndVal.b (!unexpected_found.isEmpty))]
  let unexpectedJoined := joinComma (unexpected_found.take 2)
  let reasons := reasons ++
    (if !unexpected_found.isEmpty then
      [s!"Requests unexpected action: {unexpectedJoined}"] else [])
  let score := if !unexpected_found.isEmpty then score + 2 * WEIGHTS.unexpected_action else score
  -- 6) information request
  let info_keywords := ["otp", "pin", "password", "security code", "verification code", "2fa code"]
  let info_found := info_keywords.filter (fun kw => strIn kw full_text)
  let indicators := indicators ++ [("info_request", IndVal.b (!info_found.isEmpty))]
  let infoJoined := joinComma info_found
  let reasons := reasons ++
    (if !info_found.isEmpty then [s!"Requests sensitive information: {infoJoined}"] else [])
  let score := if !info_found.isEmpty then score + 2 * WEIGHTS.info_request else score
  -- 7) "too good to be true" offers
  let promo_keywords := ["won", "reward", "free", "congratulations", "gift", "prize",
    "bonus", "lottery", "promo"]
  let promo_found := promo_keywords.filter (fun kw => strIn kw full_text)
  let indicators := indicators ++ [("too_good_to_be_true", IndVal.b (!promo_found.isEmpty))]
  let promoJoined := joinComma (promo_found.take 3)
  let reasons := reasons ++
    (if !promo_found.isEmpty then [s!"Suspicious promotional language: {promoJoined}"] else [])
  let score := if !promo_found.isEmpty then score + 2 * WEIGHTS.too_good_to_be_true else score
  -- 8) banking terms without a bank-like sender
  let bank_keywords := ["bank", "account", "card", "payment", "transaction", "balance"]
  let bank_mentions := bank_keywords.filter (fun kw => strIn kw full_text)
  let bank_flag := !bank_mentions.isEmpty &&
    !(["bank", "financial"].any (fun kw => strIn kw (pyLower sender)))
  let indicators := indicators ++
    (if bank_flag then [("bank_mention_without_legitimate_sender", IndVal.b true)] else [])
  let reasons := reasons ++
    (if bank_flag then
      ["Mentions banking/financial terms but sender doesn\x27t appear to be a bank"] else [])
  let score := if bank_flag then score + 2 * WEIGHTS.bank_mention_mismatch else score
  -- 9) missing contact information (only once already moderately suspicious)
  let has_contact_info := ["call", "contact", "reply", "stop", "unsubscribe"].any
    (fun w => strIn w full_text)
  let indicators := indicators ++ [("no_contact_info", IndVal.b (!has_contact_info))]
  let contact_fire := !has_contact_info && decide (score > 2 * 20)
  let reasons := reasons ++
    (if contact_fire then ["No contact information or opt-out instructions"] else [])
  let score := if contact_fire then score + 2 * WEIGHTS.no_contact_info else score
  -- 10) suspicious sender name
  let sender_name_patterns := ["bank", "paypal", "amazon", "apple", "google",
    "microsoft", "netflix", "uber", "whatsapp"]
  let name_flag := sender != "" &&
    sender_name_patterns.any (fun pat => strIn pat (pyLower sender))
  let indicators := indicators ++
    (if name_flag then [("suspicious_sender_name", IndVal.b true)] else [])
  let reasons := reasons ++
    (if name_flag then ["Sender name mimics well-known service"] else [])
  let score := if name_flag then score + 2 * WEIGHTS.suspicious_sender_name else score
  -- 11) formatting heuristics
  let special_count := content.data.countP (fun c => sms_special_chars.contains c)
  let special_flag := content != "" && decide (20 * special_count > 3 * max content.length 1)
  let indicators := indicators ++
    (if special_flag then [("excessive_special_chars", IndVal.b true)] else [])
  let reasons := reasons ++
    (if special_flag then ["Unusual formatting with excessive special characters"] else [])
  let score := if special_flag then score + 2 * WEIGHTS.excessive_special_chars else score
  let caps_count := content.data.countP Char.isUpper
  let caps_flag := content != "" && decide (content.length > 10) &&
    decide (2 * caps_count > content.length)
  let indicators := indicators ++
    (if caps_flag then [("excessive_caps", IndVal.b true)] else [])
  let reasons := reasons ++
    (if caps_flag then ["Message uses excessive capitalization"] else [])
  let score := if caps_flag then score + 2 * WEIGHTS.excessive_caps else score
  ⟨sender, number, content, score, reasons, indicators, links_found⟩

/-- The result record returned by analyze_sms. -/
structure SmsResult where
  sender : String
  number : String
  content : String
  score : ℤ
  verdict : String
  reasons : List String
  indicators : List (String × IndVal)
  links_found : List String
deriving DecidableEq

/-- The final score normalization and verdict mapping of analyze_sms. -/
def finalize_sms (c : SmsCoreOut) : SmsResult :=
  let mapped := mappedScore c.score
  ⟨c.sender, c.number, c.content, mapped, verdictOf mapped, orSentinel c.reasons,
   c.indicators, c.links_found⟩

/-- sms_checker.analyze_sms: all arguments optional, normalized by
`(x or "").strip()`. -/
def analyze_sms (rules : SmsRules) (sender number content : Option String) : SmsResult :=
  finalize_sms (sms_core rules (pyStrip (sender.getD "")) (pyStrip (number.getD ""))
    (pyStrip (content.getD "")))

/-! ## Projection lemmas for the shared finalization step -/

theorem finalize_url_score (c : UrlCoreOut) : (finalize_url c).score = mappedScore c.score := rfl

theorem finalize_url_verdict (c : UrlCoreOut) :
    (finalize_url c).verdict = verdictOf (mappedScore c.score) := rfl

theorem finalize_url_reasons (c : UrlCoreOut) :
    (finalize_url c).reasons = orSentinel c.reasons := rfl

theorem finalize_email_score (c : EmailCoreOut) :
    (finalize_email c).score = mappedScore c.score := rfl

theorem finalize_email_verdict (c : EmailCoreOut) :
    (finalize_email c).verdict = verdictOf (mappedScore c.score) := rfl

theorem finalize_email_reasons (c : EmailCoreOut) :
    (finalize_email c).reasons = orSentinel c.reasons := rfl

theorem finalize_sms_score (c : SmsCoreOut) : (finalize_sms c).score = mappedScore c.score := rfl

theorem finalize_sms_verdict (c : SmsCoreOut) :
    (finalize_sms c).verdict = verdictOf (mappedScore c.score) := rfl

theorem finalize_sms_reasons (c : SmsCoreOut) :
    (finalize_sms c).reasons = orSentinel c.reasons := rfl

/-- The severity of a verdict, characterized numerically. -/
theorem severity_verdictOf_eq (s : ℤ) :
    severity (verdictOf s) = if s ≥ 65 then 2 else if s ≥ 30 then 1 else 0 := by
  unfold verdictOf
  split_ifs <;> rfl

/-- Monotonicity of the verdict thresholds in the severity order. -/
theorem severity_verdictOf_mono (s1 s2 : ℤ) (h : s1 ≤ s2) :
    severity (verdictOf s1) ≤ severity (verdictOf s2) := by
  rw [severity_verdictOf_eq, severity_verdictOf_eq]
  split_ifs <;> omega

/-! ## The claims -/

/-- C1 counterexample: analyze_url does not return an AnalysisResult for
every input — on a URL with a malformed port, and on one with an unbalanced
IPv6 bracket, the `ValueError` propagates and no score is produced. -/
theorem analyze_url_raises_counterexample :
    analyze_url defaultUrlRules (some "http://example.com:1x/") =
      Except.error "Port could not be cast to integer value as \x271x\x27" ∧
    analyze_url defaultUrlRules (some "http://[abc") =
      Except.error "Invalid IPv6 URL" :=
  ⟨rfl, rfl⟩

/-- C1 amended: whenever any of the three analyzers returns an
AnalysisResult, its score is an integer with `0 ≤ score ≤ 100` — for any rule
configuration, even when the accumulated weight is negative or exceeds 100
before the final clamp.  analyze_email and analyze_sms always return;
analyze_url raises `ValueError` on some inputs (see the counterexample) and
returns no score there. -/
theorem score_bounds_all_analyzers :
    (∀ (rules : UrlRules) (url : Option String) (r : UrlResult),
        analyze_url rules url = Except.ok r → 0 ≤ r.score ∧ r.score ≤ 100) ∧
    (∀ (rules : EmailRules) (sender subject content : Option String)
        (attachments : Option (List String)),
        0 ≤ (analyze_email rules sender subject content attachments).score ∧
          (analyze_email rules sender subject content attachments).score ≤ 100) ∧
    (∀ (rules : SmsRules) (sender number content : Option String),
        0 ≤ (analyze_sms rules sender number content).score ∧
          (analyze_sms rules sender number content).score ≤ 100) := by
  refine ⟨?_, ?_, ?_⟩
  · intro rules url r h
    cases url with
    | none =>
      rw [show analyze_url rules none = Except.ok (url_invalid_result none) from rfl] at h
      injection h with h2
      subst h2
      exact ⟨by decide, by decide⟩
    | some s =>
      by_cases hs : s = ""
      · subst hs
        rw [show analyze_url rules (some "") = Except.ok (url_invalid_result (some "")) from
          rfl] at h
        injection h with h2
        subst h2
        exact ⟨by decide, by decide⟩
      · simp only [analyze_url, if_neg hs] at h
        cases hc : url_core rules s with
        | error e => rw [hc] at h; simp [Except.map] at h
        | ok c =>
          rw [hc] at h
          simp only [Except.map] at h
          injection h with h2
          subst h2
          rw [finalize_url_score]
          exact ⟨mappedScore_nonneg _, mappedScore_le_100 _⟩
  · intro rules sender subject content attachments
    unfold analyze_email
    rw [finalize_email_score]
    exact ⟨mappedScore_nonneg _, mappedScore_le_100 _⟩
  · intro rules sender number content
    unfold analyze_sms
    rw [finalize_sms_score]
    exact ⟨mappedScore_nonneg _, mappedScore_le_100 _⟩

/-- C1 witness: the amended statement at a returning call. -/
theorem score_bounds_all_analyzers_witness :
    0 ≤ ((analyze_url defaultUrlRules
        (some "https://www.google.com/search?q=x")).toOption.getD
        (url_invalid_result none)).score ∧
    ((analyze_url defaultUrlRules
        (some "https://www.google.com/search?q=x")).toOption.getD
        (url_invalid_result none)).score ≤ 100 :=
  score_bounds_all_analyzers.1 defaultUrlRules (some "https://www.google.com/search?q=x")
    ((analyze_url defaultUrlRules (some "https://www.google.com/search?q=x")).toOption.getD
      (url_invalid_result none)) rfl

/-- C2: all three analyzers end in the shared verdict map
`verdict(score) = phishing if score ≥ 65, suspicious if score ≥ 30, else
safe` of their clamped score, and for any two scores `s1 < s2` the verdict of
`s1` is never more severe than the verdict of `s2`. -/
theorem verdict_shared_and_monotone :
    (∀ (rules : UrlRules) (url : Option String) (r : UrlResult),
        analyze_url rules url = Except.ok r → r.verdict = verdictOf r.score) ∧
    (∀ (rules : EmailRules) (sender subject content : Option String)
        (attachments : Option (List String)),
        (analyze_email rules sender subject content attachments).verdict =
          verdictOf (analyze_email rules sender subject content attachments).score) ∧
    (∀ (rules : SmsRules) (sender number content : Option String),
        (analyze_sms rules sender number content).verdict =
          verdictOf (analyze_sms rules sender number content).score) ∧
    (∀ s : ℤ, verdictOf s =
        if s ≥ 65 then "phishing" else if s ≥ 30 then "suspicious" else "safe") ∧
    (∀ s1 s2 : ℤ, s1 < s2 → severity (verdictOf s1) ≤ severity (verdictOf s2)) := by
  refine ⟨?_, ?_, ?_, fun _ => rfl, fun s1 s2 h => severity_verdictOf_mono s1 s2 (le_of_lt h)⟩
  · intro rules url r h
    cases url with
    | none =>
      rw [show analyze_url rules none = Except.ok (url_invalid_result none) from rfl] at h
      injection h with h2
      subst h2
      decide
    | some s =>
      by_cases hs : s = ""
      · subst hs
        rw [show analyze_url rules (some "") = Except.ok (url_invalid_result (some "")) from
          rfl] at h
        injection h with h2
        subst h2
        decide
      · simp only [analyze_url, if_neg hs] at h
        cases hc : url_core rules s with
        | error e => rw [hc] at h; simp [Except.map] at h
        | ok c =>
          rw [hc] at h
          simp only [Except.map] at h
          injection h with h2
          subst h2
          rw [finalize_url_score, finalize_url_verdict]
  · intro rules sender subject content attachments
    unfold analyze_email
    rw [finalize_email_score, finalize_email_verdict]
  · intro rules sender number content
    unfold analyze_sms
    rw [finalize_sms_score, finalize_sms_verdict]

/-- C2 witness: the monotonicity part applied at the concrete scores 10 < 70. -/
theorem verdict_shared_and_monotone_witness :
    severity (verdictOf 10) ≤ severity (verdictOf 70) :=
  verdict_shared_and_monotone.2.2.2.2 10 70 (by norm_num)

/-- C3 counterexample: a corrupt (present but unparseable) rule file is not
replaced by the built-in defaults — all three loaders propagate the JSON
parse error, because only `FileNotFoundError` is caught. -/
theorem rule_loader_corrupt_not_defaulted :
    load_url_rules RuleFile.corrupt = Except.error "json.JSONDecodeError" ∧
    load_email_rules RuleFile.corrupt = Except.error "json.JSONDecodeError" ∧
    load_sms_rules RuleFile.corrupt = Except.error "json.JSONDecodeError" :=
  ⟨rfl, rfl, rfl⟩

/-- C3 amended: for every channel, a missing rule file makes the loader
return the hard-coded built-in default RuleSet without failing; a present
rule file is returned as parsed; but a corrupt rule file raises (only
`FileNotFoundError` is handled). -/
theorem rule_loader_missing_defaults :
    load_url_rules RuleFile.missing = Except.ok defaultUrlRules ∧
    load_email_rules RuleFile.missing = Except.ok defaultEmailRules ∧
    load_sms_rules RuleFile.missing = Except.ok defaultSmsRules ∧
    (∀ r : UrlRules, load_url_rules (RuleFile.present r) = Except.ok r) ∧
    load_url_rules RuleFile.corrupt = Except.error "json.JSONDecodeError" ∧
    load_email_rules RuleFile.corrupt = Except.error "json.JSONDecodeError" ∧
    load_sms_rules RuleFile.corrupt = Except.error "json.JSONDecodeError" :=
  ⟨rfl, rfl, rfl, fun _ => rfl, rfl, rfl, rfl⟩

/-- C4 counterexample: on the empty URL the result is maximal risk, but the
reason string is "No URL provided or wrong type" — the literal reason
"invalid input" appears nowhere in the reasons list. -/
theorem invalid_url_reason_text_counterexample :
    analyze_url defaultUrlRules (some "") = Except.ok (url_invalid_result (some "")) ∧
    "invalid input" ∉ (url_invalid_result (some "")).reasons ∧
    (url_invalid_result (some "")).score = 100 ∧
    (url_invalid_result (some "")).verdict = "phishing" ∧
    (url_invalid_result (some "")).reasons = ["No URL provided or wrong type"] := by
  refine ⟨rfl, ?_, rfl, rfl, rfl⟩
  decide

/-- C4 amended: for every empty or non-string url argument and any rule set,
analyze_url returns (and does not raise) the deterministic maximal-risk
result: score 100, verdict "phishing", the single reason
"No URL provided or wrong type", and the indicator `invalid_input = true`. -/
theorem invalid_url_maximal_risk (rules : UrlRules) (url : Option String)
    (h : url = none ∨ url = some "") :
    analyze_url rules url = Except.ok (url_invalid_result url) ∧
    (url_invalid_result url).score = 100 ∧
    (url_invalid_result url).verdict = "phishing" ∧
    (url_invalid_result url).reasons = ["No URL provided or wrong type"] ∧
    (url_invalid_result url).indicators = [("invalid_input", IndVal.b true)] := by
  rcases h with h | h <;> subst h <;> exact ⟨rfl, rfl, rfl, rfl, rfl⟩

/-- C4 witness: the amended statement at the concrete argument `none`. -/
theorem invalid_url_maximal_risk_witness :
    analyze_url defaultUrlRules none = Except.ok (url_invalid_result none) ∧
    (url_invalid_result none).score = 100 ∧
    (url_invalid_result none).verdict = "phishing" ∧
    (url_invalid_result none).reasons = ["No URL provided or wrong type"] ∧
    (url_invalid_result none).indicators = [("invalid_input", IndVal.b true)] :=
  invalid_url_maximal_risk defaultUrlRules none (Or.inl rfl)

/-- C5: `analyze_email(sender="admin@googie.com")` yields verdict "phishing"
with score exactly 75: the typosquat check fires (edit distance 1 to the
first matching brand "google", recorded in the reason text, establishing the
short-circuit at the first match), and its weight 75 alone already exceeds
the phishing threshold. -/
theorem email_typosquat_googie_phishing :
    (analyze_email defaultEmailRules (some "admin@googie.com") none none none).verdict =
      "phishing" ∧
    (analyze_email defaultEmailRules (some "admin@googie.com") none none none).score = 75 ∧
    ("typosquatting", IndVal.b true) ∈
      (analyze_email defaultEmailRules (some "admin@googie.com") none none none).indicators ∧
    "Typosquatting detected: \x27googie.com\x27 mimics trusted brand \x27google\x27" ∈
      (analyze_email defaultEmailRules (some "admin@googie.com") none none none).reasons ∧
    verdictOf (mappedScore (2 * 75)) = "phishing" := by
  decide

/-- C6: `analyze_url("https://www.google.com/search?q=x")` returns (does not
raise) and yields verdict "safe": the exact whitelist match applies the trust
override (net score 0 after clamping) and the `known_whitelist` indicator is
set. -/
theorem url_whitelist_google_safe :
    ((analyze_url defaultUrlRules (some "https://www.google.com/search?q=x")).toOption.map
      (fun r => r.verdict)) = some "safe" ∧
    ((analyze_url defaultUrlRules (some "https://www.google.com/search?q=x")).toOption.map
      (fun r => r.score)) = some 0 ∧
    ((analyze_url defaultUrlRules (some "https://www.google.com/search?q=x")).toOption.map
      (fun r => decide (("known_whitelist", IndVal.b true) ∈ r.indicators))) = some true := by
  exact ⟨rfl, rfl, rfl⟩

/-- C7: `analyze_email(sender="googlesecurity@gmail.com")` yields verdict
"phishing": the brand "google" occurs in the local-part while the sender
second-level label "gmail" is not that brand, so the local-part impersonation
weight fires (and the typosquat indicator does not). -/
theorem email_local_part_impersonation_phishing :
    (analyze_email defaultEmailRules (some "googlesecurity@gmail.com") none none none).verdict =
      "phishing" ∧
    (analyze_email defaultEmailRules (some "googlesecurity@gmail.com") none none none).score = 75 ∧
    ("brand_impersonation_local", IndVal.b true) ∈
      (analyze_email defaultEmailRules (some "googlesecurity@gmail.com") none none none).indicators ∧
    "Trusted brand \x27google\x27 found in local-part of email (potential impersonation)" ∈
      (analyze_email defaultEmailRules (some "googlesecurity@gmail.com") none none none).reasons ∧
    ("typosquatting", IndVal.b true) ∉
      (analyze_email defaultEmailRules (some "googlesecurity@gmail.com") none none none).indicators := by
  decide

/-- C8 counterexample: with a message that saturates the clamp, the bit.ly
variant does NOT score strictly higher than the otherwise identical variant
with a full, non-shortened URL — both scores are 100. -/
theorem sms_shortened_saturation_counterexample :
    ("shortened_url", IndVal.b true) ∈
      (analyze_sms defaultSmsRules (some "") (some "")
        (some "URGENT verify now free bonus gift prize won otp pin password https://bit.ly/a provide your otp send your details")).indicators ∧
    ("shortened_url", IndVal.b true) ∉
      (analyze_sms defaultSmsRules (some "") (some "")
        (some "URGENT verify now free bonus gift prize won otp pin password https://example-site.com/a provide your otp send your details")).indicators ∧
    (analyze_sms defaultSmsRules (some "") (some "")
        (some "URGENT verify now free bonus gift prize won otp pin password https://bit.ly/a provide your otp send your details")).score = 100 ∧
    (analyze_sms defaultSmsRules (some "") (some "")
        (some "URGENT verify now free bonus gift prize won otp pin password https://example-site.com/a provide your otp send your details")).score = 100 ∧
    ¬((analyze_sms defaultSmsRules (some "") (some "")
        (some "URGENT verify now free bonus gift prize won otp pin password https://example-site.com/a provide your otp send your details")).score <
      (analyze_sms defaultSmsRules (some "") (some "")
        (some "URGENT verify now free bonus gift prize won otp pin password https://bit.ly/a provide your otp send your details")).score) := by
  refine ⟨by decide, by decide, by decide, by decide, ?_⟩
  decide

/-- C8 amended: an SMS body with a shortened (bit.ly) link scores strictly
higher than the variant with a full URL, provided the two runs differ only by
the shortened-URL contribution (accumulated weight 30 apart), the full-URL
variant is below the upper clamp and the bit.ly variant above the lower
clamp.  (Without these provisos the claim fails: see the saturation
counterexample.) -/
theorem sms_shortened_strictly_higher (sender number b1 b2 : String)
    (h1 : ("shortened_url", IndVal.b true) ∈
      (analyze_sms defaultSmsRules (some sender) (some number) (some b1)).indicators)
    (h2 : ("shortened_url", IndVal.b true) ∉
      (analyze_sms defaultSmsRules (some sender) (some number) (some b2)).indicators)
    (h3 : (sms_core defaultSmsRules (pyStrip sender) (pyStrip number) (pyStrip b1)).score =
      (sms_core defaultSmsRules (pyStrip sender) (pyStrip number) (pyStrip b2)).score + 2 * 30)
    (h4 : (analyze_sms defaultSmsRules (some sender) (some number) (some b2)).score < 100)
    (h5 : 0 < (analyze_sms defaultSmsRules (some sender) (some number) (some b1)).score) :
    (analyze_sms defaultSmsRules (some sender) (some number) (some b2)).score <
      (analyze_sms defaultSmsRules (some sender) (some number) (some b1)).score := by
  have e1 : (analyze_sms defaultSmsRules (some sender) (some number) (some b1)).score =
      mappedScore (sms_core defaultSmsRules (pyStrip sender) (pyStrip number)
        (pyStrip b1)).score := rfl
  have e2 : (analyze_sms defaultSmsRules (some sender) (some number) (some b2)).score =
      mappedScore (sms_core defaultSmsRules (pyStrip sender) (pyStrip number)
        (pyStrip b2)).score := rfl
  rw [e1] at h5 ⊢
  rw [e2] at h4 ⊢
  rw [h3] at h5 ⊢
  unfold mappedScore at h4 h5 ⊢
  omega

/-- C8 witness: the amended statement at a concrete pair of bodies
("hello https://bit.ly/a" scores 60, the full-URL variant 30). -/
theorem sms_shortened_strictly_higher_witness :
    (analyze_sms defaultSmsRules (some "") (some "") (some "hello https://example.com/a")).score <
      (analyze_sms defaultSmsRules (some "") (some "") (some "hello https://bit.ly/a")).score :=
  sms_shortened_strictly_higher "" "" "hello https://bit.ly/a" "hello https://example.com/a"
    (by decide) (by decide) (by decide) (by decide) (by decide)

/-- C9 counterexample: analyze_url returns no reasons list at all on
reachable inputs — the port `ValueError` (out-of-range here), and the
unbalanced-bracket `ValueError`, escape instead. -/
theorem analyze_url_no_reasons_counterexample :
    analyze_url defaultUrlRules (some "http://example.com:99999999/") =
      Except.error "Port out of range 0-65535" ∧
    analyze_url defaultUrlRules (some "http://]ab/x") =
      Except.error "Invalid IPv6 URL" :=
  ⟨rfl, rfl⟩

/-- C9 amended: whenever any of the three analyzers returns an
AnalysisResult, its reasons list is non-empty, and when no check fired (the
accumulated reasons list is empty) it is exactly the one-element sentinel
list.  analyze_email and analyze_sms always return; analyze_url raises
`ValueError` on some inputs (see the counterexample) and returns no reasons
there. -/
theorem reasons_never_empty :
    (∀ (rules : UrlRules) (url : Option String) (r : UrlResult),
        analyze_url rules url = Except.ok r → r.reasons ≠ []) ∧
    (∀ (rules : UrlRules) (s : String) (c : UrlCoreOut), s ≠ "" →
        url_core rules s = Except.ok c → c.reasons = [] →
        analyze_url rules (some s) = Except.ok (finalize_url c) ∧
        (finalize_url c).reasons = ["No obvious automated red flags detected"]) ∧
    (∀ (rules : EmailRules) (sender subject content : Option String)
        (attachments : Option (List String)),
        (analyze_email rules sender subject content attachments).reasons ≠ []) ∧
    (∀ (rules : EmailRules) (sender subject content : Option String)
        (attachments : Option (List String)),
        (email_core rules (pyStrip (sender.getD "")) (pyStrip (subject.getD ""))
            (pyStrip (content.getD "")) (attachments.getD [])).reasons = [] →
        (analyze_email rules sender subject content attachments).reasons =
          ["No obvious automated red flags detected"]) ∧
    (∀ (rules : SmsRules) (sender number content : Option String),
        (analyze_sms rules sender number content).reasons ≠ []) ∧
    (∀ (rules : SmsRules) (sender number content : Option String),
        (sms_core rules (pyStrip (sender.getD "")) (pyStrip (number.getD ""))
            (pyStrip (content.getD ""))).reasons = [] →
        (analyze_sms rules sender number content).reasons =
          ["No obvious automated red flags detected"]) := by
  refine ⟨?_, ?_, ?_, ?_, ?_, ?_⟩
  · intro rules url r h
    cases url with
    | none =>
      rw [show analyze_url rules none = Except.ok (url_invalid_result none) from rfl] at h
      injection h with h2
      subst h2
      decide
    | some s =>
      by_cases hs : s = ""
      · subst hs
        rw [show analyze_url rules (some "") = Except.ok (url_invalid_result (some "")) from
          rfl] at h
        injection h with h2
        subst h2
        decide
      · simp only [analyze_url, if_neg hs] at h
        cases hc : url_core rules s with
        | error e => rw [hc] at h; simp [Except.map] at h
        | ok c =>
          rw [hc] at h
          simp only [Except.map] at h
          injection h with h2
          subst h2
          rw [finalize_url_reasons]
          exact orSentinel_ne_nil _
  · intro rules s c hs hok hempty
    refine ⟨?_, ?_⟩
    · simp only [analyze_url, if_neg hs]
      rw [hok]
      rfl
    · rw [finalize_url_reasons, hempty]
      rfl
  · intro rules sender subject content attachments
    unfold analyze_email
    rw [finalize_email_reasons]
    exact orSentinel_ne_nil _
  · intro rules sender subject content attachments hempty
    unfold analyze_email
    rw [finalize_email_reasons, hempty]
    rfl
  · intro rules sender number content
    unfold analyze_sms
    rw [finalize_sms_reasons]
    exact orSentinel_ne_nil _
  · intro rules sender number content hempty
    unfold analyze_sms
    rw [finalize_sms_reasons, hempty]
    rfl

/-- C9 witness: the sentinel substitution at the all-empty email call, whose
accumulated reasons list is empty. -/
theorem reasons_never_empty_witness :
    (analyze_email defaultEmailRules none none none none).reasons =
      ["No obvious automated red flags detected"] :=
  reasons_never_empty.2.2.2.1 defaultEmailRules none none none none (by decide)

/-- C10: analyze_email with every argument None or empty, and analyze_sms
with every argument None or empty, return score 0, verdict "safe" and the
single sentinel reason — unlike analyze_url, empty input is not treated as
maximal risk. -/
theorem empty_email_sms_inputs_safe :
    (∀ (sender subject content : Option String) (attachments : Option (List String)),
        (sender = none ∨ sender = some "") → (subject = none ∨ subject = some "") →
        (content = none ∨ content = some "") → (attachments = none ∨ attachments = some []) →
        (analyze_email defaultEmailRules sender subject content attachments).score = 0 ∧
        (analyze_email defaultEmailRules sender subject content attachments).verdict = "safe" ∧
        (analyze_email defaultEmailRules sender subject content attachments).reasons =
          ["No obvious automated red flags detected"]) ∧
    (∀ (sender number content : Option String),
        (sender = none ∨ sender = some "") → (number = none ∨ number = some "") →
        (content = none ∨ content = some "") →
        (analyze_sms defaultSmsRules sender number content).score = 0 ∧
        (analyze_sms defaultSmsRules sender number content).verdict = "safe" ∧
        (analyze_sms defaultSmsRules sender number content).reasons =
          ["No obvious automated red flags detected"]) := by
  constructor
  · intro sender subject content attachments hs hj hc ha
    rcases hs with h | h <;> subst h <;>
      rcases hj with h | h <;> subst h <;>
        rcases hc with h | h <;> subst h <;>
          rcases ha with h | h <;> subst h <;>
            exact ⟨rfl, rfl, rfl⟩
  · intro sender number content hs hn hc
    rcases hs with h | h <;> subst h <;>
      rcases hn with h | h <;> subst h <;>
        rcases hc with h | h <;> subst h <;>
          exact ⟨rfl, rfl, rfl⟩

/-- C10 witness: the statement at the all-`none` calls. -/
theorem empty_email_sms_inputs_safe_witness :
    (analyze_email defaultEmailRules none none none none).score = 0 ∧
    (analyze_email defaultEmailRules none none none none).verdict = "safe" ∧
    (analyze_email defaultEmailRules none none none none).reasons =
      ["No obvious automated red flags detected"] ∧
    (analyze_sms defaultSmsRules none none none).score = 0 ∧
    (analyze_sms defaultSmsRules none none none).verdict = "safe" ∧
    (analyze_sms defaultSmsRules none none none).reasons =
      ["No obvious automated red flags detected"] := by
  obtain ⟨he, hs⟩ := empty_email_sms_inputs_safe
  obtain ⟨e1, e2, e3⟩ := he none none none none (Or.inl rfl) (Or.inl rfl) (Or.inl rfl) (Or.inl rfl)
  obtain ⟨s1, s2, s3⟩ := hs none none none (Or.inl rfl) (Or.inl rfl) (Or.inl rfl)
  exact ⟨e1, e2, e3, s1, s2, s3⟩
